import Mathlib

/-!
Shallow embedding of the task/subtask lifecycle core of the research-marketplace
backend (`backend/app/api/routes/{subtasks,tasks,admin,users}.py`).

Modelling conventions:
* SQLAlchemy rows become Lean structures holding exactly the fields the
  lifecycle operations read or write; purely descriptive columns (titles,
  descriptions, attachment blobs) are omitted since no embedded operation
  touches them.  `updated_at` is maintained by the database (`onupdate`)
  rather than by route code, so it is not part of the embedded state.
* Python `Decimal` values are embedded as `ℚ` (decimal arithmetic is exact).
* `datetime.utcnow()` is an abstract clock value passed in as `now : Nat`.
* Database lookups (`scalar_one_or_none`) become either an entity passed
  directly (when every claim under study presupposes the row exists — the
  404 branch is then outside the embedded state space) or an `Option`/lookup
  function when the code genuinely branches on absence.
* `HTTPException` raised before any mutation becomes an `Except.error`
  carrying a constructor matching the HTTP status plus the detail string;
  the success value carries the mutated rows.  An error result therefore
  persists nothing, mirroring the transaction rollback semantics.
* The blockchain gateway is an external collaborator: its configuration flag
  and the outcome of `approve_subtask_payment` (a tx hash, or `none` when
  the call raises/times out) are parameters of `approve_subtask`.
-/

namespace WorkStream

/-- Error taxonomy mirroring the `HTTPException` statuses raised by the routes.
`internalError` stands for an unhandled Python exception (request aborts,
transaction rolls back). -/
inductive ApiError where
  | notFound (detail : String)
  | forbidden (detail : String)
  | badRequest (detail : String)
  | internalError
deriving DecidableEq

/-- Equality of operation results is decidable (used to evaluate the
operations on concrete witnesses). -/
instance instDecEqExcept {ε α : Type} [DecidableEq ε] [DecidableEq α] :
    DecidableEq (Except ε α) := fun a b =>
  match a, b with
  | Except.error e, Except.error f =>
    match decEq e f with
    | isTrue h => isTrue (congrArg Except.error h)
    | isFalse h => isFalse (fun hh => h (Except.error.inj hh))
  | Except.error _, Except.ok _ => isFalse (fun hh => Except.noConfusion hh)
  | Except.ok _, Except.error _ => isFalse (fun hh => Except.noConfusion hh)
  | Except.ok x, Except.ok y =>
    match decEq x y with
    | isTrue h => isTrue (congrArg Except.ok h)
    | isFalse h => isFalse (fun hh => h (Except.ok.inj hh))

/-- Lifecycle-relevant fields of `app/models/user.py::User`. -/
structure User where
  id : Nat
  wallet_address : String
  is_admin : Bool
  tasks_completed : Nat
  tasks_approved : Nat
  disputes_won : Nat
  disputes_lost : Nat
deriving DecidableEq

/-- Lifecycle-relevant fields of `app/models/task.py::Task`. -/
structure Task where
  id : Nat
  client_id : Nat
  status : String
  escrow_contract_task_id : Option Nat
  completed_at : Option Nat
deriving DecidableEq

/-- Lifecycle-relevant fields of `app/models/subtask.py::Subtask`. -/
structure Subtask where
  id : Nat
  task_id : Nat
  status : String
  claimed_by : Option Nat
  claimed_at : Option Nat
  collaborators : Option (List Nat)
  collaborator_splits : Option (List ℚ)
  submitted_at : Option Nat
  approved_at : Option Nat
  approved_by : Option Nat
  sequence_order : Nat
  budget_cngn : ℚ
deriving DecidableEq

/-- Review-relevant fields of `app/models/submission.py::Submission`. -/
structure Submission where
  id : Nat
  subtask_id : Nat
  status : String
  reviewed_by : Option Nat
  reviewed_at : Option Nat
  review_notes : Option String
  payment_tx_hash : Option String
deriving DecidableEq

/-- Fields of `app/models/dispute.py::Dispute`. -/
structure Dispute where
  id : Nat
  subtask_id : Nat
  raised_by : Nat
  reason : String
  status : String
  resolution : Option String
  resolved_by : Option Nat
  resolved_at : Option Nat
  winner_id : Option Nat
deriving DecidableEq

/-- `app/schemas/subtask.py::SubtaskClaimRequest`.  Python truthiness conflates
`None` and the empty list (`if claim_request.collaborators:`), so an absent
field is embedded as `[]`. -/
structure SubtaskClaimRequest where
  collaborators : List String
  splits : List ℚ
deriving DecidableEq

/-- `select(User).where(User.wallet_address == wallet.lower())`. -/
def findUserByWallet (users : List User) (wallet : String) : Option User :=
  users.find? (fun u => u.wallet_address == wallet.toLower)

/-- `select(User).where(User.id == uid)`. -/
def findUserById (users : List User) (uid : Nat) : Option User :=
  users.find? (fun u => u.id == uid)

/-- The collaborator-validation loop of `claim_subtask` (subtasks.py lines
167-178): walk the wallets in order, fail on the first that resolves to no
user (the detail names the offending wallet verbatim, the lookup lowercases
it), otherwise collect the resolved user ids in order. -/
def resolveCollaborators (users : List User) : List String → Except ApiError (List Nat)
  | [] => Except.ok []
  | w :: ws =>
    match findUserByWallet users w with
    | none => Except.error (ApiError.badRequest ("Collaborator not found: " ++ w))
    | some u =>
      match resolveCollaborators users ws with
      | Except.error e => Except.error e
      | Except.ok ids => Except.ok (u.id :: ids)

/-- Rows mutated by a successful claim. -/
structure ClaimResult where
  subtask : Subtask
  task : Task
deriving DecidableEq

/-- The collaborator/splits block of `claim_subtask` (subtasks.py lines
161-191): with no request or no collaborators both stored fields stay unset;
otherwise the wallets are resolved in order, and when splits are supplied
(`if claim_request.splits:`) their length must be `len(collaborators) + 1`
and their sum exactly 100, after which the stored value is `splits[1:]` (the
first entry is the claimer's own split). -/
def validateCollaborators (users : List User) (req : Option SubtaskClaimRequest) :
    Except ApiError (Option (List Nat) × Option (List ℚ)) :=
  match req with
  | none => Except.ok (none, none)
  | some q =>
    if q.collaborators = [] then Except.ok (none, none)
    else
      match resolveCollaborators users q.collaborators with
      | Except.error e => Except.error e
      | Except.ok ids =>
        if q.splits = [] then Except.ok (some ids, none)
        else if q.splits.length ≠ q.collaborators.length + 1 then
          Except.error (ApiError.badRequest "Splits must include claimer and all collaborators")
        else if q.splits.sum ≠ 100 then
          Except.error (ApiError.badRequest "Splits must sum to 100")
        else Except.ok (some ids, some q.splits.tail)

/-- `subtasks.py::claim_subtask` (lines 117-206).  The subtask and its parent
task are passed in (404 branches elided); `users` is the user table consulted
by the collaborator wallet lookups. -/
def claim_subtask (st : Subtask) (tk : Task) (users : List User) (cu : User)
    (req : Option SubtaskClaimRequest) (now : Nat) : Except ApiError ClaimResult :=
  if st.status ≠ "open" then
    Except.error (ApiError.badRequest "Subtask is not available for claiming")
  else if ¬ (tk.status = "funded" ∨ tk.status = "decomposed" ∨ tk.status = "in_progress") then
    Except.error (ApiError.badRequest "Task is not available for work")
  else
    match validateCollaborators users req with
    | Except.error e => Except.error e
    | Except.ok (cids, csplits) =>
      Except.ok
        { subtask :=
            { st with
              status := "claimed"
              claimed_by := some cu.id
              claimed_at := some now
              collaborators := cids
              collaborator_splits := csplits }
          task :=
            if tk.status = "funded" ∨ tk.status = "decomposed" then
              { tk with status := "in_progress" }
            else tk }

/-- `subtasks.py::unclaim_subtask` (lines 209-256). -/
def unclaim_subtask (st : Subtask) (cu : User) : Except ApiError Subtask :=
  if st.claimed_by ≠ some cu.id ∧ ¬ cu.is_admin then
    Except.error (ApiError.forbidden "Not authorized to unclaim this subtask")
  else if ¬ (st.status = "claimed" ∨ st.status = "in_progress") then
    Except.error (ApiError.badRequest "Cannot unclaim subtask in current status")
  else
    Except.ok
      { st with
        status := "open"
        claimed_by := none
        claimed_at := none
        collaborators := none
        collaborator_splits := none }

/-- Rows mutated by a successful approval: the subtask, the latest submission
(when one exists), and the worker row whose reputation counters were bumped
(when the subtask had a claimant that resolved to a user). -/
structure ApproveResult where
  subtask : Subtask
  submission : Option Submission
  worker : Option User
deriving DecidableEq

/-- `subtasks.py::approve_subtask` (lines 362-483).  `submission` is the result
of the latest-submission query; `users` backs the worker lookup.  The escrow
gateway is abstracted by `configured` (`BlockchainService.is_configured()`)
and `paymentOutcome`: `some h` means `approve_subtask_payment` returned tx
hash `h`, `none` means the call raised or timed out (the code catches the
exception and continues with no hash).  The amount-in-wei and sibling-index
arguments fed to the gateway do not influence any embedded row, so they are
absorbed into `paymentOutcome`. -/
def approve_subtask (st : Subtask) (tk : Task) (submission : Option Submission)
    (users : List User) (cu : User) (review_notes : Option String)
    (configured : Bool) (paymentOutcome : Option String) (now : Nat) :
    Except ApiError ApproveResult :=
  if tk.client_id ≠ cu.id ∧ ¬ cu.is_admin then
    Except.error (ApiError.forbidden "Not authorized to approve this subtask")
  else if st.status ≠ "submitted" then
    Except.error (ApiError.badRequest "Subtask is not pending approval")
  else
    let worker : Option User :=
      match st.claimed_by with
      | none => none
      | some uid => findUserById users uid
    let payment_tx_hash : Option String :=
      if worker.isSome ∧ tk.escrow_contract_task_id.isSome ∧ st.budget_cngn ≠ 0 ∧ configured then
        paymentOutcome
      else none
    let submission' : Option Submission :=
      submission.map fun s =>
        { s with
          status := "approved"
          reviewed_by := some cu.id
          reviewed_at := some now
          review_notes := review_notes
          payment_tx_hash :=
            match payment_tx_hash with
            | some h => some h
            | none => s.payment_tx_hash }
    let worker' : Option User :=
      worker.map fun w =>
        { w with
          tasks_completed := w.tasks_completed + 1
          tasks_approved := w.tasks_approved + 1 }
    Except.ok
      { subtask :=
          { st with
            status := "approved"
            approved_at := some now
            approved_by := some cu.id }
        submission := submission'
        worker := worker' }

/-- Rows produced/mutated by dispute creation. -/
structure DisputeResult where
  dispute : Dispute
  subtask : Subtask
  task : Option Task
deriving DecidableEq

/-- `subtasks.py::create_dispute` (lines 547-604).  The parent-task lookup may
miss (`task = scalar_one_or_none()`), and the code genuinely branches on that,
so the task stays an `Option`.  No precondition on the subtask status exists
in the source. -/
def create_dispute (st : Subtask) (tk : Option Task) (cu : User)
    (reason : String) (newDisputeId : Nat) : Except ApiError DisputeResult :=
  let is_client : Bool :=
    match tk with
    | some t => t.client_id == cu.id
    | none => false
  let is_worker : Bool := st.claimed_by == some cu.id
  let is_collab : Bool :=
    match st.collaborators with
    | some l => cu.id ∈ l
    | none => false
  if ¬ (is_client ∨ is_worker ∨ is_collab ∨ cu.is_admin) then
    Except.error (ApiError.forbidden "Not authorized to dispute this subtask")
  else
    Except.ok
      { dispute :=
          { id := newDisputeId
            subtask_id := st.id
            raised_by := cu.id
            reason := reason
            status := "open"
            resolution := none
            resolved_by := none
            resolved_at := none
            winner_id := none }
        subtask := { st with status := "disputed" }
        task := tk.map fun t => { t with status := "disputed" } }

/-- `tasks.py::cancel_task` (lines 285-345).  `subtasks` is the result of the
child query. -/
def cancel_task (tk : Task) (subtasks : List Subtask) (cu : User) :
    Except ApiError Task :=
  if tk.client_id ≠ cu.id ∧ ¬ cu.is_admin then
    Except.error (ApiError.forbidden "Not authorized to cancel this task")
  else if ¬ (tk.status = "draft" ∨ tk.status = "funded" ∨ tk.status = "decomposed") then
    Except.error (ApiError.badRequest "Cannot cancel task in current status")
  else if subtasks.any (fun s =>
      s.status == "claimed" ∨ s.status == "in_progress" ∨ s.status == "submitted") then
    Except.error (ApiError.badRequest "Cannot cancel task with active subtasks")
  else
    Except.ok { tk with status := "cancelled" }

/-- `tasks.py::complete_task` (lines 348-408). -/
def complete_task (tk : Task) (subtasks : List Subtask) (cu : User) (now : Nat) :
    Except ApiError Task :=
  if tk.client_id ≠ cu.id ∧ ¬ cu.is_admin then
    Except.error (ApiError.forbidden "Not authorized to complete this task")
  else if subtasks = [] then
    Except.error (ApiError.badRequest "Task has no subtasks")
  else if ¬ subtasks.all (fun s => s.status == "approved") then
    Except.error (ApiError.badRequest "Not all subtasks are approved")
  else
    Except.ok { tk with status := "completed", completed_at := some now }

/-- Rows mutated by dispute resolution.  `winner`/`loser` hold the updated
user rows found by the respective lookups (in the database both updates hit
the same row when the ids coincide; no claim under study depends on that
corner). -/
structure ResolveResult where
  dispute : Dispute
  subtask : Option Subtask
  task : Option Task
  winner : Option User
  loser : Option User
deriving DecidableEq

/-- `admin.py::resolve_dispute` (lines 251-351).  `subtask` is the lookup
result for `dispute.subtask_id`; `taskOf`/`userOf` model the remaining id
lookups.  The admin-only guard is the route's `AdminUser` dependency, applied
before the handler body, so `admin` arrives pre-authorized.  When the subtask
lookup misses and the raiser is the winner, the source reads the local
variable `task` before any assignment (`if task:` at line 332) — a `NameError`
that aborts the request: embedded as `internalError`. -/
def resolve_dispute (dispute : Dispute) (subtask : Option Subtask)
    (taskOf : Nat → Option Task) (userOf : Nat → Option User)
    (admin : User) (winner_id : Nat) (resolution : String) (now : Nat) :
    Except ApiError ResolveResult :=
  if dispute.status ≠ "open" then
    Except.error (ApiError.badRequest "Dispute is not open")
  else
    let dispute' : Dispute :=
      { dispute with
        status := "resolved"
        resolution := some resolution
        resolved_by := some admin.id
        resolved_at := some now
        winner_id := some winner_id }
    let winner' : Option User :=
      (userOf winner_id).map fun w => { w with disputes_won := w.disputes_won + 1 }
    match subtask with
    | some st =>
      let st' : Subtask :=
        if st.claimed_by == some winner_id then
          { st with
            status := "approved"
            approved_at := some now
            approved_by := some admin.id }
        else
          { st with status := "rejected" }
      let task : Option Task := taskOf st.task_id
      let task' : Option Task := task.map fun t => { t with status := "in_progress" }
      let loser : Option User :=
        if dispute.raised_by == winner_id then
          if st.claimed_by ≠ some winner_id then
            match st.claimed_by with
            | some cid => userOf cid
            | none => none
          else
            match task with
            | some t => userOf t.client_id
            | none => none
        else userOf dispute.raised_by
      let loser' : Option User :=
        loser.map fun l => { l with disputes_lost := l.disputes_lost + 1 }
      Except.ok
        { dispute := dispute'
          subtask := some st'
          task := task'
          winner := winner'
          loser := loser' }
    | none =>
      if dispute.raised_by == winner_id then
        Except.error ApiError.internalError
      else
        Except.ok
          { dispute := dispute'
            subtask := none
            task := none
            winner := winner'
            loser := (userOf dispute.raised_by).map fun l =>
              { l with disputes_lost := l.disputes_lost + 1 } }

/-- `⌊log2 n⌋` for `n ≥ 1`, by structural recursion on a fuel argument (`n`
halves at every step, so fuel `n` always suffices). -/
def natLog2Fuel : Nat → Nat → Nat
  | 0, _ => 0
  | fuel + 1, n => if n ≤ 1 then 0 else natLog2Fuel fuel (n / 2) + 1

/-- `⌊log2 n⌋` for `n ≥ 1` (0 at 0). -/
def nlog2 (n : Nat) : Nat := natLog2Fuel n n

/-- A non-negative IEEE-754 binary64 value, represented exactly: the value is
`m * 2 ^ g`.  Python's reputation arithmetic
(`tasks_approved / tasks_completed * 200` and the tier-threshold comparisons)
runs on such doubles, so the embedding computes with them exactly. -/
structure Dbl where
  m : Nat
  g : Int
deriving DecidableEq

/-- The rational value of a `Dbl`. -/
def dblToRat (d : Dbl) : ℚ :=
  if 0 ≤ d.g then ((d.m * 2 ^ d.g.toNat : Nat) : ℚ) else (d.m : ℚ) / ((2 ^ (-d.g).toNat : Nat) : ℚ)

/-- CPython's `int / int` true division: the exact quotient `a / b` correctly
rounded to the nearest binary64 (round-to-nearest, ties-to-even), with the
subnormal grid clamped at `2 ^ (-1074)`.  `e` is `⌊log2 (a/b)⌋`; the
significand is the half-even rounding of `(a/b) * 2 ^ (-g)` on the grid
exponent `g`.  Overflow to infinity is not modelled: a quotient at or above
`2 ^ 1024` raises `OverflowError` in CPython (no score is produced at all),
and is unreachable for the bounded counters this serves.  Returns 0.0 when
`a = 0` (and a junk value on the never-taken `b = 0` branch, which only the
`tasks_completed > 0` guard reaches). -/
def divDouble (a b : Nat) : Dbl :=
  if a = 0 ∨ b = 0 then ⟨0, 0⟩
  else
    let e0 : Int := (nlog2 a : Int) - (nlog2 b : Int)
    let geq : Bool :=
      if 0 ≤ e0 then decide (b * 2 ^ e0.toNat ≤ a) else decide (b ≤ a * 2 ^ (-e0).toNat)
    let e : Int := if geq then e0 else e0 - 1
    let g : Int := max (e - 52) (-1074)
    let num : Nat := if 0 ≤ g then a else a * 2 ^ (-g).toNat
    let den : Nat := if 0 ≤ g then b * 2 ^ g.toNat else b
    let q : Nat := num / den
    let r : Nat := num % den
    let m : Nat :=
      if 2 * r < den then q
      else if den < 2 * r then q + 1
      else if q % 2 = 0 then q else q + 1
    ⟨m, g⟩

/-- IEEE binary64 multiplication of a double by the integer 200 (exactly
representable): the exact product `(m * 2 ^ g) * 200`, correctly rounded back
to a double — expressed through `divDouble` on the exact product written as a
quotient of naturals. -/
def mulDouble200 (d : Dbl) : Dbl :=
  if 0 ≤ d.g then divDouble (d.m * 200 * 2 ^ d.g.toNat) 1
  else divDouble (d.m * 200) (2 ^ (-d.g).toNat)

/-- Python's `int(x)` on a non-negative double: truncation toward zero, i.e.
the floor of `m * 2 ^ g`. -/
def intOfDouble (d : Dbl) : Nat :=
  if 0 ≤ d.g then d.m * 2 ^ d.g.toNat else d.m / 2 ^ (-d.g).toNat

/-- `x <= y` on non-negative doubles: the exact comparison of their values
(IEEE comparison of finite doubles is exact), decided after scaling both to
the common grid `min x.g y.g`. -/
def dblLe (x y : Dbl) : Bool :=
  decide (x.m * 2 ^ (x.g - min x.g y.g).toNat ≤ y.m * 2 ^ (y.g - min x.g y.g).toNat)

/-- `users.py::calculate_reputation_score` (lines 88-113).  The approval
bonus is `int(tasks_approved / tasks_completed * 200)` computed in Python
float (binary64) arithmetic: the division is correctly rounded to a double,
the multiplication by 200 is correctly rounded again, and `int()` truncates
the non-negative result toward zero. -/
def calculate_reputation_score (u : User) : ℤ :=
  let base0 : ℤ := min ((u.tasks_completed : ℤ) * 10) 500
  let base1 : ℤ :=
    if u.tasks_completed > 0 then
      base0 + (intOfDouble (mulDouble200 (divDouble u.tasks_approved u.tasks_completed)) : ℤ)
    else base0
  let base2 : ℤ := base1 + (u.disputes_won : ℤ) * 20 - (u.disputes_lost : ℤ) * 50
  max base2 0

/-- `users.py::calculate_tier` (lines 116-140).  `approval_rate` is the
binary64 quotient `tasks_approved / tasks_completed`, and the literals `0.9`
and `0.8` denote the doubles nearest 9/10 and 8/10 (the correctly rounded
values of those quotients); the `>=` comparisons are exact comparisons of the
double values. -/
def calculate_tier (score : ℤ) (tasks_completed tasks_approved : ℕ) : String :=
  if tasks_completed = 0 then "new"
  else
    let rate := divDouble tasks_approved tasks_completed
    if tasks_completed ≥ 50 ∧ dblLe (divDouble 9 10) rate ∧ score ≥ 600 then "expert"
    else if tasks_completed ≥ 20 ∧ dblLe (divDouble 8 10) rate ∧ score ≥ 300 then "established"
    else if tasks_completed ≥ 5 ∧ score ≥ 50 then "active"
    else "new"

/-- The score formula read exactly as the spec words it (§4.4), in exact
arithmetic: base = min(tasks_completed×10, 500); +
int(tasks_approved/tasks_completed × 200) if tasks_completed>0; +
disputes_won×20 − disputes_lost×50; floored at 0.  The `int(...)` of the
non-negative exact ratio is its floor over `ℚ`.  The code does **not**
satisfy this reading (see the C9 counterexample). -/
def score_spec (tc ta dw dl : ℕ) : ℤ :=
  max
    (min ((tc : ℤ) * 10) 500 +
      (if 0 < tc then ((⌊(ta : ℚ) / (tc : ℚ) * 200⌋₊ : ℕ) : ℤ) else 0) +
      (dw : ℤ) * 20 - (dl : ℤ) * 50)
    0

/-- The score formula as amended: identical to the spec's wording except that
`int(tasks_approved/tasks_completed × 200)` is computed in binary64
arithmetic (correctly rounded division, correctly rounded multiplication by
200, truncation toward zero), as the code does. -/
def score_spec_float (tc ta dw dl : ℕ) : ℤ :=
  max
    (min ((tc : ℤ) * 10) 500 +
      (if 0 < tc then (intOfDouble (mulDouble200 (divDouble ta tc)) : ℤ) else 0) +
      (dw : ℤ) * 20 - (dl : ℤ) * 50)
    0

/-- Tier of a user as the route computes it: the tier function applied to the
user's own score and counters. -/
def tier_of (u : User) : String :=
  calculate_tier (calculate_reputation_score u) u.tasks_completed u.tasks_approved

/-! Concrete fixtures used by the witness theorems. -/

/-- Worker who claims subtasks in the witnesses. -/
def wClaimant : User := ⟨1, "0xa", false, 0, 0, 0, 0⟩

/-- Collaborator whose wallet is `0xb`. -/
def wCollab : User := ⟨2, "0xb", false, 0, 0, 0, 0⟩

/-- Client owning the witness task. -/
def wClient : User := ⟨3, "0xc", false, 0, 0, 0, 0⟩

/-- Admin user. -/
def wAdmin : User := ⟨4, "0xd", true, 0, 0, 0, 0⟩

/-- An open, unclaimed subtask under the witness task. -/
def wOpenSubtask : Subtask := ⟨10, 20, "open", none, none, none, none, none, none, none, 1, 50⟩

/-- The witness task, funded and owned by `wClient`. -/
def wFundedTask : Task := ⟨20, 3, "funded", none, none⟩

/-! Helper lemmas about the claim operation. -/

theorem resolveCollaborators_ok_length (users : List User) :
    ∀ ws ids, resolveCollaborators users ws = Except.ok ids → ids.length = ws.length := by
  intro ws
  induction ws with
  | nil =>
    intro ids h
    simp only [resolveCollaborators] at h
    cases h
    rfl
  | cons w ws ih =>
    intro ids h
    simp only [resolveCollaborators] at h
    cases hf : findUserByWallet users w with
    | none => rw [hf] at h; exact Except.noConfusion h
    | some u =>
      rw [hf] at h
      cases hr : resolveCollaborators users ws with
      | error e => rw [hr] at h; exact Except.noConfusion h
      | ok ids' =>
        rw [hr] at h
        cases h
        simp [ih ids' hr]

theorem resolveCollaborators_error_of_missing (users : List User) :
    ∀ ws, (∃ w ∈ ws, findUserByWallet users w = none) →
      ∃ w ∈ ws, findUserByWallet users w = none ∧
        resolveCollaborators users ws =
          Except.error (ApiError.badRequest ("Collaborator not found: " ++ w)) := by
  intro ws
  induction ws with
  | nil => rintro ⟨w, hw, _⟩; exact absurd hw (List.not_mem_nil w)
  | cons w ws ih =>
    rintro ⟨v, hv, hvnone⟩
    cases hf : findUserByWallet users w with
    | none =>
      refine ⟨w, List.mem_cons_self w ws, hf, ?_⟩
      simp only [resolveCollaborators, hf]
    | some u =>
      have hvw : v ≠ w := by rintro rfl; rw [hf] at hvnone; exact Option.noConfusion hvnone
      have hv' : v ∈ ws := by
        rcases List.mem_cons.mp hv with h | h
        · exact absurd h hvw
        · exact h
      obtain ⟨x, hx, hxnone, hres⟩ := ih ⟨v, hv', hvnone⟩
      refine ⟨x, List.mem_cons_of_mem w hx, hxnone, ?_⟩
      simp only [resolveCollaborators, hf, hres]

theorem validateCollaborators_ok_inv (users : List User) (q : SubtaskClaimRequest)
    (cids : Option (List Nat)) (csplits : Option (List ℚ))
    (h : validateCollaborators users (some q) = Except.ok (cids, csplits))
    (hc : q.collaborators ≠ []) :
    ∃ ids, resolveCollaborators users q.collaborators = Except.ok ids ∧ cids = some ids ∧
      ((q.splits = [] ∧ csplits = none) ∨
       (q.splits ≠ [] ∧ q.splits.length = q.collaborators.length + 1 ∧ q.splits.sum = 100 ∧
        csplits = some q.splits.tail)) := by
  simp only [validateCollaborators, if_neg hc] at h
  cases hr : resolveCollaborators users q.collaborators with
  | error e => rw [hr] at h; exact Except.noConfusion h
  | ok ids =>
    rw [hr] at h
    dsimp only at h
    refine ⟨ids, rfl, ?_⟩
    by_cases hs : q.splits = []
    · rw [if_pos hs] at h
      cases h
      exact ⟨rfl, Or.inl ⟨hs, rfl⟩⟩
    · rw [if_neg hs] at h
      by_cases hl : q.splits.length ≠ q.collaborators.length + 1
      · rw [if_pos hl] at h; exact Except.noConfusion h
      · rw [if_neg hl] at h
        push_neg at hl
        by_cases hsum : q.splits.sum ≠ 100
        · rw [if_pos hsum] at h; exact Except.noConfusion h
        · rw [if_neg hsum] at h
          push_neg at hsum
          cases h
          exact ⟨rfl, Or.inr ⟨hs, hl, hsum, rfl⟩⟩

theorem claim_subtask_ok_inv (st : Subtask) (tk : Task) (users : List User) (cu : User)
    (req : Option SubtaskClaimRequest) (now : Nat) (r : ClaimResult)
    (h : claim_subtask st tk users cu req now = Except.ok r) :
    st.status = "open" ∧
    (tk.status = "funded" ∨ tk.status = "decomposed" ∨ tk.status = "in_progress") ∧
    ∃ cids csplits, validateCollaborators users req = Except.ok (cids, csplits) ∧
      r.subtask = { st with
                    status := "claimed"
                    claimed_by := some cu.id
                    claimed_at := some now
                    collaborators := cids
                    collaborator_splits := csplits } ∧
      r.task = (if tk.status = "funded" ∨ tk.status = "decomposed" then
                  { tk with status := "in_progress" } else tk) := by
  unfold claim_subtask at h
  by_cases h1 : st.status ≠ "open"
  · rw [if_pos h1] at h; exact Except.noConfusion h
  · rw [if_neg h1] at h
    push_neg at h1
    by_cases h2 : ¬ (tk.status = "funded" ∨ tk.status = "decomposed" ∨ tk.status = "in_progress")
    · rw [if_pos h2] at h; exact Except.noConfusion h
    · rw [if_neg h2] at h
      push_neg at h2
      refine ⟨h1, by tauto, ?_⟩
      cases hv : validateCollaborators users req with
      | error e => rw [hv] at h; exact Except.noConfusion h
      | ok p =>
        rw [hv] at h
        obtain ⟨cids, csplits⟩ := p
        cases h
        exact ⟨cids, csplits, rfl, rfl, rfl⟩

/-- The claim result produced by claiming `wOpenSubtask` with collaborator
wallet `0xb` and splits `[60, 40]` at time 7. -/
def wClaimResult : ClaimResult :=
  ⟨⟨10, 20, "claimed", some 1, some 7, some [2], some [40], none, none, none, 1, 50⟩,
   ⟨20, 3, "in_progress", none, none⟩⟩

/-- C8: for an open subtask whose claim-related fields are unset (the only
reachable shape of an open subtask: creation leaves them unset and unclaim
resets them), a successful claim followed by an unclaim by the claimant
returns the subtask row exactly to its pre-claim state: status back to open,
claimant, claim timestamp, collaborators and splits reset, and no other
embedded field modified (`updated_at` is database-maintained and outside the
embedded row). -/
theorem claim_unclaim_roundtrip (st : Subtask) (tk : Task) (users : List User) (cu : User)
    (req : Option SubtaskClaimRequest) (now : Nat) (r : ClaimResult)
    (hcb : st.claimed_by = none) (hca : st.claimed_at = none)
    (hco : st.collaborators = none) (hcs : st.collaborator_splits = none)
    (h : claim_subtask st tk users cu req now = Except.ok r) :
    unclaim_subtask r.subtask cu = Except.ok st := by
  obtain ⟨hopen, -, cids, csplits, -, hsub, -⟩ := claim_subtask_ok_inv st tk users cu req now r h
  cases st with
  | mk i ti s cb ca co csp sa aa ab so bu =>
    simp only at hcb hca hco hcs hopen
    subst hcb hca hco hcs hopen
    rw [hsub]
    simp [unclaim_subtask]

/-- Witness for C8: worker 1 claims the open witness subtask (no
collaborators) at time 7 and unclaims it; the row returns exactly to
`wOpenSubtask`. -/
theorem claim_unclaim_roundtrip_witness :
    unclaim_subtask
      (⟨⟨10, 20, "claimed", some 1, some 7, none, none, none, none, none, 1, 50⟩,
        ⟨20, 3, "in_progress", none, none⟩⟩ : ClaimResult).subtask wClaimant =
      Except.ok wOpenSubtask :=
  claim_unclaim_roundtrip wOpenSubtask wFundedTask [wClaimant] wClaimant none 7
    ⟨⟨10, 20, "claimed", some 1, some 7, none, none, none, none, none, 1, 50⟩,
     ⟨20, 3, "in_progress", none, none⟩⟩
    rfl rfl rfl rfl (by decide)

/-- Counterexample to C1 as stated: claiming the open witness subtask with one
collaborator (`0xb`) and splits `[60, 40]` succeeds, but the stored
`collaborator_splits` is `[40]` — the source keeps only `splits[1:]` — whose
length is 1 (not `len(collaborators) + 1 = 2`) and whose sum is 40, not 100. -/
theorem claim_stored_splits_refuted :
    (claim_subtask wOpenSubtask wFundedTask [wClaimant, wCollab] wClaimant
        (some ⟨["0xb"], [60, 40]⟩) 7).map (fun r => r.subtask.collaborator_splits) =
      Except.ok (some [(40 : ℚ)]) ∧
    ¬ (([(40 : ℚ)] : List ℚ).length = ["0xb"].length + 1 ∧ ([(40 : ℚ)] : List ℚ).sum = 100) := by
  constructor
  · with_unfolding_all decide
  · with_unfolding_all decide

/-- C1 (amended): immediately after a successful claim that supplied
collaborators and splits, the submitted splits list (claimant + collaborators)
has length `len(collaborators) + 1` and sums to exactly 100, but the stored
`collaborator_splits` is its tail `splits[1:]`: length `len(collaborators)`,
summing to 100 minus the claimant's (first) split.  A claim supplying
collaborators without splits persists `collaborators` set with
`collaborator_splits` unset; splits are never stored without collaborators
(they are `splits[1:]` of a validated request); unclaim clears both together
(and resets status to open). -/
theorem claim_collaborator_splits_invariant (st : Subtask) (tk : Task) (users : List User)
    (cu : User) (q : SubtaskClaimRequest) (now : Nat) (r : ClaimResult)
    (h : claim_subtask st tk users cu (some q) now = Except.ok r)
    (hc : q.collaborators ≠ []) :
    (q.splits ≠ [] →
      r.subtask.collaborator_splits = some q.splits.tail ∧
      q.splits.length = q.collaborators.length + 1 ∧
      q.splits.sum = 100 ∧
      q.splits.tail.length = q.collaborators.length ∧
      q.splits.tail.sum = 100 - q.splits.headI) ∧
    (q.splits = [] → r.subtask.collaborator_splits = none) ∧
    (∃ ids, r.subtask.collaborators = some ids ∧ ids.length = q.collaborators.length) ∧
    ∃ st2, unclaim_subtask r.subtask cu = Except.ok st2 ∧
      st2.collaborators = none ∧ st2.collaborator_splits = none ∧ st2.status = "open" := by
  obtain ⟨hopen, -, cids, csplits, hv, hsub, -⟩ := claim_subtask_ok_inv st tk users cu
    (some q) now r h
  obtain ⟨ids, hres, hcids, hcase⟩ := validateCollaborators_ok_inv users q cids csplits hv hc
  have hlen := resolveCollaborators_ok_length users q.collaborators ids hres
  refine ⟨?_, ?_, ?_, ?_⟩
  · intro hs
    rcases hcase with ⟨hs', -⟩ | ⟨-, hl, hsum, hcsp⟩
    · exact absurd hs' hs
    · subst hcsp
      rw [hsub]
      refine ⟨rfl, hl, hsum, ?_, ?_⟩
      · cases hq : q.splits with
        | nil => exact absurd hq hs
        | cons a t =>
          rw [hq] at hl
          simpa using Nat.succ_injective hl
      · cases hq : q.splits with
        | nil => exact absurd hq hs
        | cons a t =>
          rw [hq] at hsum
          simp only [List.sum_cons] at hsum
          simp [hq]
          linarith
  · intro hs
    rcases hcase with ⟨-, hcsp⟩ | ⟨hs', -⟩
    · rw [hsub, hcsp]
    · exact absurd hs hs'
  · exact ⟨ids, by rw [hsub, hcids], hlen⟩
  · refine ⟨{ r.subtask with
              status := "open"
              claimed_by := none
              claimed_at := none
              collaborators := none
              collaborator_splits := none }, ?_, rfl, rfl, rfl⟩
    rw [hsub]
    simp [unclaim_subtask]

/-- Witness for the amended C1 at the counterexample input: stored splits are
the tail `[40]` of the validated request `[60, 40]`, and the subsequent
unclaim clears collaborators and splits together. -/
theorem claim_collaborator_splits_invariant_witness :
    (wClaimResult.subtask.collaborator_splits = some ([(60 : ℚ), 40] : List ℚ).tail ∧
      ([(60 : ℚ), 40] : List ℚ).length = (["0xb"] : List String).length + 1 ∧
      ([(60 : ℚ), 40] : List ℚ).sum = 100 ∧
      ([(60 : ℚ), 40] : List ℚ).tail.length = (["0xb"] : List String).length ∧
      ([(60 : ℚ), 40] : List ℚ).tail.sum = 100 - ([(60 : ℚ), 40] : List ℚ).headI) ∧
    ∃ st2, unclaim_subtask wClaimResult.subtask wClaimant = Except.ok st2 ∧
      st2.collaborators = none ∧ st2.collaborator_splits = none ∧ st2.status = "open" := by
  have h := claim_collaborator_splits_invariant wOpenSubtask wFundedTask [wClaimant, wCollab]
    wClaimant ⟨["0xb"], [60, 40]⟩ 7 wClaimResult (by with_unfolding_all decide) (by decide)
  exact ⟨h.1 (by decide), h.2.2.2⟩

theorem resolveCollaborators_error_shape (users : List User) :
    ∀ ws e, resolveCollaborators users ws = Except.error e →
      ∃ m, e = ApiError.badRequest m := by
  intro ws
  induction ws with
  | nil =>
    intro e h
    simp only [resolveCollaborators] at h
    exact Except.noConfusion h
  | cons w ws ih =>
    intro e h
    simp only [resolveCollaborators] at h
    cases hf : findUserByWallet users w with
    | none =>
      rw [hf] at h
      cases h
      exact ⟨_, rfl⟩
    | some u =>
      rw [hf] at h
      cases hr : resolveCollaborators users ws with
      | error f =>
        rw [hr] at h
        cases h
        exact ih _ hr
      | ok ids => rw [hr] at h; exact Except.noConfusion h

/-- C5: a claim succeeds only from subtask status `open` with the parent task
in `{funded, decomposed, in_progress}`; a claim on a non-open subtask is
rejected with the state-conflict detail; with collaborators supplied, an
unknown wallet is rejected with a detail naming that wallet; with splits
supplied whose length or sum is wrong, the claim is rejected with a
validation detail.  Every rejection is an `Except.error`, which carries no
successor state: nothing is persisted. -/
theorem claim_preconditions_and_validation (st : Subtask) (tk : Task) (users : List User)
    (cu : User) (req : Option SubtaskClaimRequest) (now : Nat) :
    (∀ r, claim_subtask st tk users cu req now = Except.ok r →
      st.status = "open" ∧
      (tk.status = "funded" ∨ tk.status = "decomposed" ∨ tk.status = "in_progress")) ∧
    (st.status ≠ "open" →
      claim_subtask st tk users cu req now =
        Except.error (ApiError.badRequest "Subtask is not available for claiming")) ∧
    (∀ q, req = some q → st.status = "open" →
      (tk.status = "funded" ∨ tk.status = "decomposed" ∨ tk.status = "in_progress") →
      q.collaborators ≠ [] →
      (∃ w ∈ q.collaborators, findUserByWallet users w = none) →
      ∃ w ∈ q.collaborators, findUserByWallet users w = none ∧
        claim_subtask st tk users cu req now =
          Except.error (ApiError.badRequest ("Collaborator not found: " ++ w))) ∧
    (∀ q, req = some q → q.collaborators ≠ [] → q.splits ≠ [] →
      (q.splits.length ≠ q.collaborators.length + 1 ∨ q.splits.sum ≠ 100) →
      ∃ m, claim_subtask st tk users cu req now = Except.error (ApiError.badRequest m)) := by
  refine ⟨?_, ?_, ?_, ?_⟩
  · intro r h
    obtain ⟨h1, h2, -⟩ := claim_subtask_ok_inv st tk users cu req now r h
    exact ⟨h1, h2⟩
  · intro hne
    unfold claim_subtask
    rw [if_pos hne]
  · rintro q rfl hopen htask hc hmiss
    obtain ⟨w, hw, hwnone, hres⟩ := resolveCollaborators_error_of_missing users
      q.collaborators hmiss
    refine ⟨w, hw, hwnone, ?_⟩
    unfold claim_subtask
    rw [if_neg (by simp [hopen]), if_neg (by simp [htask])]
    simp only [validateCollaborators, if_neg hc, hres]
  · rintro q rfl hc hs hbad
    by_cases hopen : st.status ≠ "open"
    · exact ⟨_, by unfold claim_subtask; rw [if_pos hopen]⟩
    · push_neg at hopen
      by_cases htask : ¬ (tk.status = "funded" ∨ tk.status = "decomposed" ∨
          tk.status = "in_progress")
      · exact ⟨_, by unfold claim_subtask; rw [if_neg (by simp [hopen]), if_pos htask]⟩
      · have hclaim : ∀ e, validateCollaborators users (some q) = Except.error e →
            claim_subtask st tk users cu (some q) now = Except.error e := by
          intro e he
          unfold claim_subtask
          rw [if_neg (by simp [hopen]), if_neg htask, he]
        cases hr : resolveCollaborators users q.collaborators with
        | error e =>
          obtain ⟨m, rfl⟩ := resolveCollaborators_error_shape users q.collaborators e hr
          exact ⟨m, hclaim _ (by simp only [validateCollaborators, if_neg hc, hr])⟩
        | ok ids =>
          rcases hbad with hlen | hsum
          · refine ⟨"Splits must include claimer and all collaborators", hclaim _ ?_⟩
            simp only [validateCollaborators, if_neg hc, hr]
            rw [if_neg hs, if_pos hlen]
          · by_cases hlen : q.splits.length ≠ q.collaborators.length + 1
            · refine ⟨"Splits must include claimer and all collaborators", hclaim _ ?_⟩
              simp only [validateCollaborators, if_neg hc, hr]
              rw [if_neg hs, if_pos hlen]
            · refine ⟨"Splits must sum to 100", hclaim _ ?_⟩
              simp only [validateCollaborators, if_neg hc, hr]
              rw [if_neg hs, if_neg hlen, if_pos hsum]

/-- Witness for C5: a claim against an already-claimed subtask is rejected
with the state-conflict detail. -/
theorem claim_preconditions_and_validation_witness :
    claim_subtask { wOpenSubtask with status := "claimed" } wFundedTask [] wClaimant none 7 =
      Except.error (ApiError.badRequest "Subtask is not available for claiming") :=
  (claim_preconditions_and_validation { wOpenSubtask with status := "claimed" }
    wFundedTask [] wClaimant none 7).2.1 (by decide)

/-- The authorization disjunction of `create_dispute` (subtasks.py lines
579-583): task client, claimant, listed collaborator, or admin. -/
def disputeAuthorized (st : Subtask) (tk : Option Task) (cu : User) : Prop :=
  (∃ t, tk = some t ∧ t.client_id = cu.id) ∨ st.claimed_by = some cu.id ∨
  (∃ l, st.collaborators = some l ∧ cu.id ∈ l) ∨ cu.is_admin = true

theorem create_dispute_eq_ok (st : Subtask) (tk : Option Task) (cu : User)
    (reason : String) (nid : Nat) (hauth : disputeAuthorized st tk cu) :
    create_dispute st tk cu reason nid = Except.ok
      ⟨⟨nid, st.id, cu.id, reason, "open", none, none, none, none⟩,
       { st with status := "disputed" },
       tk.map fun t => { t with status := "disputed" }⟩ := by
  unfold create_dispute
  rw [if_neg]
  intro hno
  apply hno
  rcases hauth with ⟨t, rfl, ht⟩ | h | ⟨l, hl, hm⟩ | h
  · simp [ht]
  · simp [h]
  · rw [hl]; simp [hm]
  · simp [h]

/-- Counterexample to C2 as stated: the source (subtasks.py lines 597-599)
sets the parent task's status to `disputed` unconditionally — there is no
terminal-state exception.  Raising a dispute on a child of a `completed`
task changes the task's status to `disputed`. -/
theorem dispute_terminal_task_refuted :
    (create_dispute wOpenSubtask (some { wFundedTask with status := "completed" })
        wClient "bad work" 99).map
      (fun r => (r.subtask.status, r.task.map Task.status)) =
      Except.ok ("disputed", some "disputed") ∧
    ("completed" : String) ≠ "disputed" := by
  constructor
  · decide
  · decide

/-- C2 (amended): dispute creation on a child subtask by any authorized
participant forces both the subtask's and the parent task's status to
`disputed` regardless of the task's current status — terminal states
(`completed`, `cancelled`) included; the code has no terminal-state
exception. -/
theorem dispute_forces_disputed_any_status (st : Subtask) (tk : Task) (cu : User)
    (reason : String) (nid : Nat) (hauth : disputeAuthorized st (some tk) cu) :
    ∃ r, create_dispute st (some tk) cu reason nid = Except.ok r ∧
      r.subtask.status = "disputed" ∧
      r.task = some { tk with status := "disputed" } :=
  ⟨_, create_dispute_eq_ok st (some tk) cu reason nid hauth, rfl, rfl⟩

/-- Witness for the amended C2: the client disputes a child of a `completed`
task; subtask and task both end `disputed`. -/
theorem dispute_forces_disputed_any_status_witness :
    ∃ r, create_dispute wOpenSubtask (some { wFundedTask with status := "completed" })
        wClient "bad work" 99 = Except.ok r ∧
      r.subtask.status = "disputed" ∧
      r.task = some { { wFundedTask with status := "completed" } with status := "disputed" } :=
  dispute_forces_disputed_any_status wOpenSubtask { wFundedTask with status := "completed" }
    wClient "bad work" 99 (Or.inl ⟨_, rfl, rfl⟩)

/-- C10: dispute creation has no subtask-status precondition: for a subtask in
any status, any authorized participant's dispute call succeeds, creates a new
`open` dispute row against that subtask, and forces subtask (and parent task,
when found) to `disputed`; a second call against the already-disputed subtask
succeeds as well, creating a second open dispute. -/
theorem create_dispute_no_status_precondition (st : Subtask) (tk : Option Task) (cu : User)
    (reason : String) (n1 n2 : Nat) (hauth : disputeAuthorized st tk cu) :
    ∃ r, create_dispute st tk cu reason n1 = Except.ok r ∧
      r.dispute.status = "open" ∧ r.dispute.subtask_id = st.id ∧
      r.dispute.raised_by = cu.id ∧ r.subtask.status = "disputed" ∧
      (∀ t, tk = some t → r.task = some { t with status := "disputed" }) ∧
      ∃ r2, create_dispute r.subtask r.task cu reason n2 = Except.ok r2 ∧
        r2.dispute.status = "open" ∧ r2.dispute.subtask_id = st.id ∧
        r2.subtask.status = "disputed" := by
  refine ⟨_, create_dispute_eq_ok st tk cu reason n1 hauth, rfl, rfl, rfl, rfl,
    fun t ht => by rw [ht]; rfl, ?_⟩
  have hauth2 : disputeAuthorized { st with status := "disputed" }
      (tk.map fun t => { t with status := "disputed" }) cu := by
    rcases hauth with ⟨t, rfl, ht⟩ | h | ⟨l, hl, hm⟩ | h
    · exact Or.inl ⟨_, rfl, ht⟩
    · exact Or.inr (Or.inl h)
    · exact Or.inr (Or.inr (Or.inl ⟨l, by simp only; rw [hl], hm⟩))
    · exact Or.inr (Or.inr (Or.inr h))
  exact ⟨_, create_dispute_eq_ok _ _ cu reason n2 hauth2, rfl, rfl, rfl⟩

/-- Witness for C10: the claimant disputes a subtask that is already
`approved` (no status precondition), twice in a row. -/
theorem create_dispute_no_status_precondition_witness :
    ∃ r, create_dispute { wOpenSubtask with status := "approved", claimed_by := some 1 }
        (some wFundedTask) wClaimant "payment issue" 41 = Except.ok r ∧
      r.dispute.status = "open" ∧
      r.dispute.subtask_id =
        ({ wOpenSubtask with status := "approved", claimed_by := some 1 } : Subtask).id ∧
      r.dispute.raised_by = wClaimant.id ∧ r.subtask.status = "disputed" ∧
      (∀ t, some wFundedTask = some t → r.task = some { t with status := "disputed" }) ∧
      ∃ r2, create_dispute r.subtask r.task wClaimant "payment issue" 42 = Except.ok r2 ∧
        r2.dispute.status = "open" ∧
        r2.dispute.subtask_id =
          ({ wOpenSubtask with status := "approved", claimed_by := some 1 } : Subtask).id ∧
        r2.subtask.status = "disputed" :=
  create_dispute_no_status_precondition
    { wOpenSubtask with status := "approved", claimed_by := some 1 }
    (some wFundedTask) wClaimant "payment issue" 41 42 (Or.inr (Or.inl rfl))

/-- C3: approving a submitted subtask with an escrow-bound task whose
blockchain payment release fails or times out (the gateway call raises; the
code catches and continues) still succeeds: the subtask becomes `approved`
with approver/timestamp set, the worker's `tasks_completed` and
`tasks_approved` counters each increment by 1, and no `payment_tx_hash` is
recorded on the submission. -/
theorem approve_payment_failure_still_approves (st : Subtask) (tk : Task) (s : Submission)
    (users : List User) (cu w : User) (notes : Option String) (eid wid now : Nat)
    (hauth : tk.client_id = cu.id ∨ cu.is_admin = true)
    (hst : st.status = "submitted")
    (hcb : st.claimed_by = some wid)
    (hw : findUserById users wid = some w)
    (hesc : tk.escrow_contract_task_id = some eid)
    (hbud : st.budget_cngn ≠ 0)
    (htx : s.payment_tx_hash = none) :
    approve_subtask st tk (some s) users cu notes true none now =
      Except.ok
        ⟨{ st with status := "approved", approved_at := some now, approved_by := some cu.id },
         some { s with status := "approved", reviewed_by := some cu.id, reviewed_at := some now,
                       review_notes := notes, payment_tx_hash := none },
         some { w with tasks_completed := w.tasks_completed + 1,
                       tasks_approved := w.tasks_approved + 1 }⟩ := by
  unfold approve_subtask
  rw [if_neg (by rcases hauth with h | h <;> simp [h]), if_neg (by simp [hst])]
  rw [hcb]
  dsimp only
  rw [hw]
  simp [ite_self, htx]

/-- Witness for C3: client approves worker 1's submitted subtask on an
escrow-bound task; the chain call times out (`none`), approval still lands,
counters increment, no tx hash recorded. -/
theorem approve_payment_failure_still_approves_witness :
    approve_subtask { wOpenSubtask with status := "submitted", claimed_by := some 1 }
        { wFundedTask with escrow_contract_task_id := some 9 }
        (some ⟨1, 10, "pending", none, none, none, none⟩) [wClaimant] wClient none true none 8 =
      Except.ok
        ⟨{ ({ wOpenSubtask with status := "submitted", claimed_by := some 1 } : Subtask) with
             status := "approved", approved_at := some 8, approved_by := some wClient.id },
         some { (⟨1, 10, "pending", none, none, none, none⟩ : Submission) with
                  status := "approved", reviewed_by := some wClient.id, reviewed_at := some 8,
                  review_notes := none, payment_tx_hash := none },
         some { wClaimant with tasks_completed := wClaimant.tasks_completed + 1,
                               tasks_approved := wClaimant.tasks_approved + 1 }⟩ :=
  approve_payment_failure_still_approves
    { wOpenSubtask with status := "submitted", claimed_by := some 1 }
    { wFundedTask with escrow_contract_task_id := some 9 }
    ⟨1, 10, "pending", none, none, none, none⟩ [wClaimant] wClient wClaimant none 9 1 8
    (Or.inl rfl) rfl rfl rfl rfl (by decide) rfl

/-- C6: for a task with at least one child subtask and an authorized actor
(owner or admin), `complete` succeeds iff every child subtask is `approved`;
on success the task becomes `completed` with the completion timestamp set (and
nothing else changed); when some child is not approved it fails with the
specific rejection, and the error result persists nothing (the task row is
unchanged). -/
theorem complete_task_iff_all_approved (tk : Task) (subs : List Subtask) (cu : User)
    (now : Nat) (hauth : tk.client_id = cu.id ∨ cu.is_admin = true) (hne : subs ≠ []) :
    ((∃ tk2, complete_task tk subs cu now = Except.ok tk2) ↔
      ∀ s ∈ subs, s.status = "approved") ∧
    (∀ tk2, complete_task tk subs cu now = Except.ok tk2 →
      tk2 = { tk with status := "completed", completed_at := some now }) ∧
    ((∃ s ∈ subs, s.status ≠ "approved") →
      complete_task tk subs cu now =
        Except.error (ApiError.badRequest "Not all subtasks are approved")) := by
  have hb : (subs.all (fun s => s.status == "approved") = true) ↔
      ∀ s ∈ subs, s.status = "approved" := by
    simp [List.all_eq_true]
  unfold complete_task
  rw [if_neg (by rcases hauth with h | h <;> simp [h]), if_neg hne]
  refine ⟨⟨?_, ?_⟩, ?_, ?_⟩
  · rintro ⟨tk2, h⟩
    by_cases hall : ¬ subs.all (fun s => s.status == "approved") = true
    · rw [if_pos hall] at h
      exact Except.noConfusion h
    · push_neg at hall
      exact hb.mp hall
  · intro hall
    rw [if_neg (fun hno => hno (hb.mpr hall))]
    exact ⟨_, rfl⟩
  · intro tk2 h
    by_cases hall : ¬ subs.all (fun s => s.status == "approved") = true
    · rw [if_pos hall] at h
      exact Except.noConfusion h
    · rw [if_neg hall] at h
      cases h
      rfl
  · rintro ⟨s, hs, hsne⟩
    rw [if_pos (fun hall => hsne (hb.mp hall s hs))]

/-- Witness for C6: a task with one `open` (non-approved) subtask cannot be
completed, and the same task completes once its only subtask is `approved`. -/
theorem complete_task_iff_all_approved_witness :
    (¬ ∃ tk2, complete_task wFundedTask [wOpenSubtask] wClient 9 = Except.ok tk2) ∧
    ∃ tk2, complete_task wFundedTask [{ wOpenSubtask with status := "approved" }] wClient 9 =
      Except.ok tk2 := by
  constructor
  · intro hex
    have h := (complete_task_iff_all_approved wFundedTask [wOpenSubtask] wClient 9
      (Or.inl rfl) (by decide)).1.mp hex
    exact absurd (h wOpenSubtask (by decide)) (by decide)
  · exact (complete_task_iff_all_approved wFundedTask [{ wOpenSubtask with status := "approved" }]
      wClient 9 (Or.inl rfl) (by decide)).1.mpr (by decide)

/-- C7: for a task in `draft`/`funded`/`decomposed` with an authorized actor,
`cancel` fails iff some child subtask is `claimed`, `in_progress` or
`submitted` (with the "active subtasks" rejection); on success the task
becomes `cancelled` and nothing else changes; an error result persists
nothing (the task row is unchanged). -/
theorem cancel_task_iff_no_active_subtasks (tk : Task) (subs : List Subtask) (cu : User)
    (hauth : tk.client_id = cu.id ∨ cu.is_admin = true)
    (hst : tk.status = "draft" ∨ tk.status = "funded" ∨ tk.status = "decomposed") :
    ((∃ tk2, cancel_task tk subs cu = Except.ok tk2) ↔
      ¬ ∃ s ∈ subs, s.status = "claimed" ∨ s.status = "in_progress" ∨
        s.status = "submitted") ∧
    (∀ tk2, cancel_task tk subs cu = Except.ok tk2 → tk2 = { tk with status := "cancelled" }) ∧
    ((∃ s ∈ subs, s.status = "claimed" ∨ s.status = "in_progress" ∨ s.status = "submitted") →
      cancel_task tk subs cu =
        Except.error (ApiError.badRequest "Cannot cancel task with active subtasks")) := by
  have hb : (subs.any (fun s =>
      s.status == "claimed" ∨ s.status == "in_progress" ∨ s.status == "submitted") = true) ↔
      ∃ s ∈ subs, s.status = "claimed" ∨ s.status = "in_progress" ∨ s.status = "submitted" := by
    simp [List.any_eq_true]
  unfold cancel_task
  rw [if_neg (by rcases hauth with h | h <;> simp [h]),
    if_neg (fun hno => hno (by tauto))]
  refine ⟨⟨?_, ?_⟩, ?_, ?_⟩
  · rintro ⟨tk2, h⟩ hact
    rw [if_pos (hb.mpr hact)] at h
    exact Except.noConfusion h
  · intro hact
    rw [if_neg (fun hany => hact (hb.mp hany))]
    exact ⟨_, rfl⟩
  · intro tk2 h
    by_cases hany : subs.any (fun s =>
        s.status == "claimed" ∨ s.status == "in_progress" ∨ s.status == "submitted") = true
    · rw [if_pos hany] at h
      exact Except.noConfusion h
    · rw [if_neg hany] at h
      cases h
      rfl
  · intro hact
    rw [if_pos (hb.mpr hact)]

/-- Witness for C7: a funded task with a `claimed` child cannot be cancelled;
with only an `open` child it cancels. -/
theorem cancel_task_iff_no_active_subtasks_witness :
    cancel_task wFundedTask [{ wOpenSubtask with status := "claimed" }] wClient =
      Except.error (ApiError.badRequest "Cannot cancel task with active subtasks") ∧
    ∃ tk2, cancel_task wFundedTask [wOpenSubtask] wClient = Except.ok tk2 := by
  constructor
  · exact (cancel_task_iff_no_active_subtasks wFundedTask
      [{ wOpenSubtask with status := "claimed" }] wClient (Or.inl rfl)
      (Or.inr (Or.inl rfl))).2.2
      ⟨{ wOpenSubtask with status := "claimed" }, by decide, by decide⟩
  · exact (cancel_task_iff_no_active_subtasks wFundedTask [wOpenSubtask] wClient
      (Or.inl rfl) (Or.inr (Or.inl rfl))).1.mpr (by decide)

/-- C4: resolving an open dispute whose subtask and winner resolve: the
subtask becomes `approved` exactly when its claimant equals the winner (with
approver and timestamp set), `rejected` otherwise — exactly one of the two
holds — the parent task returns to `in_progress` regardless of the winning
side, and the winner's `disputes_won` counter increments by 1; the dispute
row itself is `resolved` with the winner recorded. -/
theorem resolve_dispute_outcome (d : Dispute) (st : Subtask) (taskOf : Nat → Option Task)
    (userOf : Nat → Option User) (admin : User) (wid : Nat) (res : String) (now : Nat)
    (t : Task) (w : User)
    (hopen : d.status = "open") (ht : taskOf st.task_id = some t)
    (hw : userOf wid = some w) :
    ∃ r, resolve_dispute d (some st) taskOf userOf admin wid res now = Except.ok r ∧
      (∃ st2, r.subtask = some st2 ∧
        (st2.status = "approved" ↔ st.claimed_by = some wid) ∧
        (st2.status = "approved" ∨ st2.status = "rejected") ∧
        ¬ (st2.status = "approved" ∧ st2.status = "rejected") ∧
        (st.claimed_by = some wid →
          st2.approved_by = some admin.id ∧ st2.approved_at = some now)) ∧
      r.task = some { t with status := "in_progress" } ∧
      r.winner = some { w with disputes_won := w.disputes_won + 1 } ∧
      r.dispute.status = "resolved" ∧ r.dispute.winner_id = some wid := by
  unfold resolve_dispute
  rw [if_neg (by simp [hopen])]
  dsimp only
  refine ⟨_, rfl, ?_, ?_, ?_, rfl, rfl⟩
  · by_cases hcb : st.claimed_by = some wid
    · refine ⟨{ st with status := "approved", approved_at := some now,
                        approved_by := some admin.id }, ?_, ?_, ?_, ?_, ?_⟩
      · rw [if_pos (by simp [hcb])]
      · simp [hcb]
      · exact Or.inl rfl
      · simp
      · intro _
        exact ⟨rfl, rfl⟩
    · refine ⟨{ st with status := "rejected" }, ?_, ?_, ?_, ?_, ?_⟩
      · rw [if_neg (by simp [hcb])]
      · simp [hcb]
      · exact Or.inr rfl
      · simp
      · intro hc
        exact absurd hc hcb
  · rw [ht]
    rfl
  · rw [hw]
    rfl

/-- Witness for C4: the worker (claimant, id 1) wins the dispute raised by
the client on their claimed subtask: subtask approved with approver/timestamp
set, task back to `in_progress`, worker's `disputes_won` incremented. -/
theorem resolve_dispute_outcome_witness :
    ∃ r, resolve_dispute ⟨99, 10, 3, "bad work", "open", none, none, none, none⟩
        (some { wOpenSubtask with status := "disputed", claimed_by := some 1 })
        (fun i => if i = 20 then some { wFundedTask with status := "disputed" } else none)
        (fun i => if i = 1 then some wClaimant else if i = 3 then some wClient else none)
        wAdmin 1 "worker did the work" 11 = Except.ok r ∧
      (∃ st2, r.subtask = some st2 ∧
        (st2.status = "approved" ↔
          ({ wOpenSubtask with status := "disputed", claimed_by := some 1 } : Subtask).claimed_by =
            some 1) ∧
        (st2.status = "approved" ∨ st2.status = "rejected") ∧
        ¬ (st2.status = "approved" ∧ st2.status = "rejected") ∧
        (({ wOpenSubtask with status := "disputed", claimed_by := some 1 } : Subtask).claimed_by =
            some 1 →
          st2.approved_by = some wAdmin.id ∧ st2.approved_at = some 11)) ∧
      r.task = some { { wFundedTask with status := "disputed" } with status := "in_progress" } ∧
      r.winner = some { wClaimant with disputes_won := wClaimant.disputes_won + 1 } ∧
      r.dispute.status = "resolved" ∧ r.dispute.winner_id = some 1 :=
  resolve_dispute_outcome ⟨99, 10, 3, "bad work", "open", none, none, none, none⟩
    { wOpenSubtask with status := "disputed", claimed_by := some 1 }
    (fun i => if i = 20 then some { wFundedTask with status := "disputed" } else none)
    (fun i => if i = 1 then some wClaimant else if i = 3 then some wClient else none)
    wAdmin 1 "worker did the work" 11
    { wFundedTask with status := "disputed" } wClaimant rfl (by decide) (by decide)

set_option maxRecDepth 40000 in
/-- Counterexample to C9 as stated: at tasks_completed = 200,
tasks_approved = 29 the float pipeline computes
`int(double(29/200) * 200) = int(28.999999999999996) = 28` — the quotient
rounds to the double just below 0.145 and the product to the double just
below 29 — so the code's score is 528, while the exact formula of the claim
gives `int(29/200 × 200) = 29` and score 529. -/
theorem reputation_exact_formula_refuted :
    calculate_reputation_score ⟨1, "0xa", false, 200, 29, 0, 0⟩ = 528 ∧
    score_spec 200 29 0 0 = 529 ∧
    (528 : ℤ) ≠ 529 := by
  refine ⟨by decide, ?_, by decide⟩
  unfold score_spec
  rw [if_pos (by norm_num)]
  have h1 : ((29 : ℕ) : ℚ) / ((200 : ℕ) : ℚ) * 200 = ((29 : ℕ) : ℚ) := by
    push_cast
    norm_num
  rw [h1, Nat.floor_natCast]
  norm_num

/-- C9 (amended): the reputation score equals min(tasks_completed×10, 500),
plus int(tasks_approved/tasks_completed × 200) computed in binary64 float
arithmetic — the division and the multiplication by 200 each correctly
rounded to the nearest double, ties to even, and int() truncating toward
zero — when tasks_completed > 0, plus disputes_won×20, minus
disputes_lost×50, floored at 0; score and tier are deterministic pure
functions of the four counters — two users with equal counters always get
the same score and the same tier. -/
theorem reputation_score_float_matches_spec (u v : User)
    (h1 : u.tasks_completed = v.tasks_completed)
    (h2 : u.tasks_approved = v.tasks_approved)
    (h3 : u.disputes_won = v.disputes_won)
    (h4 : u.disputes_lost = v.disputes_lost) :
    calculate_reputation_score u =
      score_spec_float u.tasks_completed u.tasks_approved u.disputes_won u.disputes_lost ∧
    calculate_reputation_score u = calculate_reputation_score v ∧
    tier_of u = tier_of v := by
  have hsc : calculate_reputation_score u = calculate_reputation_score v := by
    simp only [calculate_reputation_score, h1, h2, h3, h4]
  refine ⟨?_, hsc, ?_⟩
  · unfold calculate_reputation_score score_spec_float
    dsimp only
    by_cases htc : u.tasks_completed > 0
    · rw [if_pos htc, if_pos htc]
    · rw [if_neg htc, if_neg htc]
      ring_nf
  · unfold tier_of
    rw [hsc, h1, h2]

/-- Witness for the amended C9: two users with different identities but equal
counters (3 completed, 2 approved, 1 dispute won) score identically, match
the amended (float) formula, and share a tier. -/
theorem reputation_score_float_matches_spec_witness :
    calculate_reputation_score ⟨1, "0xa", false, 3, 2, 1, 0⟩ = score_spec_float 3 2 1 0 ∧
    calculate_reputation_score ⟨1, "0xa", false, 3, 2, 1, 0⟩ =
      calculate_reputation_score ⟨2, "0xb", true, 3, 2, 1, 0⟩ ∧
    tier_of ⟨1, "0xa", false, 3, 2, 1, 0⟩ = tier_of ⟨2, "0xb", true, 3, 2, 1, 0⟩ :=
  reputation_score_float_matches_spec ⟨1, "0xa", false, 3, 2, 1, 0⟩
    ⟨2, "0xb", true, 3, 2, 1, 0⟩ rfl rfl rfl rfl

end WorkStream
